import Mathlib

/-!
Shallow embedding of `src/nativ_mcp/server.py` (the Nativ MCP adapter).

Upstream JSON values are modelled by `JVal`; Python dictionaries by
association lists (`Dict`).  Python's `d.get(k, default)` is `dgetD`,
`d.get(k)` is `dget`, and the raising subscript `d[k]` is `ditem`
(returning `Except` to model `KeyError`).  Python truthiness on the
values that occur here is `pyTruthy`.  Numeric JSON values are modelled
as integers (the claims under study only compare scores with zero and
print them with `:.0f`, which on the integral scores at stake prints the
integer).  HTTP effects are factored out: each formatter takes the
decoded response value, and the client's status handling takes the
response status and body.
-/

inductive JVal where
  | str (s : String)
  | num (n : Int)
  | bool (b : Bool)
  | null
  | obj (fields : List (String × JVal))
  | arr (elts : List JVal)
  deriving Repr

abbrev Dict := List (String × JVal)

/-- Python `d.get(k)`: `none` models Python `None`. -/
def dget (d : Dict) (k : String) : Option JVal :=
  d.lookup k

/-- Python `d.get(k, default)`. -/
def dgetD (d : Dict) (k : String) (default : JVal) : JVal :=
  (dget d k).getD default

/-- Python `d[k]`: raises `KeyError` when the key is absent. -/
def ditem (d : Dict) (k : String) : Except String JVal :=
  match dget d k with
  | some v => Except.ok v
  | none => Except.error ("KeyError: " ++ k)

/-- Python truthiness of a JSON value. -/
def pyTruthy (v : JVal) : Bool :=
  match v with
  | JVal.str s => s != ""
  | JVal.num n => n != 0
  | JVal.bool b => b
  | JVal.null => false
  | JVal.obj fields => !fields.isEmpty
  | JVal.arr elts => !elts.isEmpty

/-- Python truthiness of an optional value (`None` is falsy). -/
def pyTruthyOpt (v : Option JVal) : Bool :=
  match v with
  | some v => pyTruthy v
  | none => false

/-- Python `str()` as used in f-string interpolation of the values at stake. -/
def pyStr (v : JVal) : String :=
  match v with
  | JVal.str s => s
  | JVal.num n => toString n
  | JVal.bool true => "True"
  | JVal.bool false => "False"
  | JVal.null => "None"
  | JVal.obj _ => "<object>"
  | JVal.arr _ => "<array>"

/-- Python `f"{v:.0f}"` on the numeric scores at stake (integral floats). -/
def fmtScore (v : JVal) : Except String String :=
  match v with
  | JVal.num n => Except.ok (toString n)
  | _ => Except.error "ValueError: unsupported format"

/-! ## NativClient: status handling (`NativClient._request`, lines 39–58)

`_request` raises a distinguished insufficient-credits error on status
402 and defers every other non-2xx status to `resp.raise_for_status()`
(an HTTP status error carrying status and body); on success it returns
the decoded JSON body. -/

inductive NativError where
  | insufficientCredits (hint : String)
  | upstreamError (status : Nat) (body : String)
  | transportError (cause : String)
  deriving Repr, DecidableEq

def insufficientCreditsHint : String :=
  "Insufficient Nativ credits. Top up at https://dashboard.usenativ.com"

/-- The response handling of `NativClient._request`: status 402 raises the
distinguished credits error; any other non-2xx status raises the generic
upstream (HTTP status) error; a 2xx status returns the decoded body. -/
def handle_status (status : Nat) (rawBody : String) (jsonBody : Dict) :
    Except NativError Dict :=
  if status == 402 then
    Except.error (NativError.insufficientCredits insufficientCreditsHint)
  else if 200 ≤ status ∧ status < 300 then
    Except.ok jsonBody
  else
    Except.error (NativError.upstreamError status rawBody)

/-! Each of the nine `NativClient` operations performs exactly one
`_request` and returns its result, so each operation's outcome as a
function of the upstream response is `handle_status`. -/

def op_translate_outcome (status : Nat) (raw : String) (body : Dict) :=
  handle_status status raw body
def op_get_languages_outcome (status : Nat) (raw : String) (body : Dict) :=
  handle_status status raw body
def op_search_tm_outcome (status : Nat) (raw : String) (body : Dict) :=
  handle_status status raw body
def op_list_tm_entries_outcome (status : Nat) (raw : String) (body : Dict) :=
  handle_status status raw body
def op_add_tm_entry_outcome (status : Nat) (raw : String) (body : Dict) :=
  handle_status status raw body
def op_get_tm_stats_outcome (status : Nat) (raw : String) (body : Dict) :=
  handle_status status raw body
def op_list_style_guides_outcome (status : Nat) (raw : String) (body : Dict) :=
  handle_status status raw body
def op_get_brand_prompt_outcome (status : Nat) (raw : String) (body : Dict) :=
  handle_status status raw body
def op_get_combined_prompt_outcome (status : Nat) (raw : String) (body : Dict) :=
  handle_status status raw body

/-! ## NativClient.translate body construction (lines 62–98) -/

/-- Optional entry added by `if v: body[k] = v` (Python truthiness on a
string parameter: `None` and `""` are both falsy). -/
def optStrEntry (k : String) (v : Option String) : Dict :=
  match v with
  | some s => if s ≠ "" then [(k, JVal.str s)] else []
  | none => []

/-- Optional entry added by `if v is not None: body[k] = v`. -/
def optIntEntry (k : String) (v : Option Int) : Dict :=
  match v with
  | some n => [(k, JVal.num n)]
  | none => []

/-- The request body built by `NativClient.translate`: the fixed keys of
the dict literal, then the conditional optional keys in source order. -/
def client_translate_body (text language : String)
    (language_code : Option String)
    (source_language source_language_code : String)
    (context glossary formality : Option String)
    (max_characters : Option Int)
    (include_tm_info backtranslate include_rationale : Bool) : Dict :=
  [("text", JVal.str text),
   ("language", JVal.str language),
   ("source_language", JVal.str source_language),
   ("source_language_code", JVal.str source_language_code),
   ("tool", JVal.str "api"),
   ("include_tm_info", JVal.bool include_tm_info),
   ("backtranslate", JVal.bool backtranslate),
   ("include_rationale", JVal.bool include_rationale)]
  ++ optStrEntry "language_code" language_code
  ++ optStrEntry "context" context
  ++ optStrEntry "glossary" glossary
  ++ optStrEntry "formality" formality
  ++ optIntEntry "max_characters" max_characters

/-- Python `x or None` on a string parameter. -/
def orNone (s : String) : Option String :=
  if s ≠ "" then some s else none

/-- The upstream request body produced by the `translate` tool
(lines 249–261): sentinel-valued optionals are mapped to `None` before
calling `NativClient.translate`; `include_tm_info` and
`include_rationale` are left at the client defaults (`True`), and only
`backtranslate` is forwarded from the tool's parameters. -/
def tool_translate_body (text target_language target_language_code
    source_language source_language_code context glossary formality : String)
    (max_characters : Int) (backtranslate : Bool) : Dict :=
  client_translate_body text target_language
    (orNone target_language_code)
    source_language source_language_code
    (orNone context) (orNone glossary) (orNone formality)
    (if max_characters > 0 then some max_characters else none)
    true backtranslate true

/-! ## Configuration: `_get_client` (lines 183–192), constructor (lines 31–37),
and the entry point `main` (lines 655–656). -/

def DEFAULT_API_URL : String := "https://api.usenativ.com"

structure NativClient where
  base_url : String
  api_key : String
  deriving Repr, DecidableEq

/-- Python `v or default` on an optional string. -/
def pyOrStr (v : Option String) (d : String) : String :=
  match v with
  | some s => if s != "" then s else d
  | none => d

/-- Python `s.rstrip("/")`. -/
def rstripSlash (s : String) : String :=
  s.dropRightWhile (fun c => c == '/')

/-- `NativClient.__init__`: the base URL defaults to the fixed production
endpoint and is stripped of trailing slashes; the key is attached as the
`X-API-Key` header value (field `api_key`). -/
def makeClient (api_key : String) (base_url : Option String) : NativClient :=
  ⟨rstripSlash (pyOrStr base_url DEFAULT_API_URL), api_key⟩

def missingKeyMessage : String :=
  "NATIV_API_KEY environment variable is required. Create one at https://dashboard.usenativ.com → Settings → API Keys"

/-- `_get_client`: read `NATIV_API_KEY` from the environment, raise when it
is unset or empty, otherwise build a `NativClient` from it and the optional
`NATIV_API_URL` override. -/
def get_client (env : String → Option String) : Except String NativClient :=
  let api_key := (env "NATIV_API_KEY").getD ""
  if api_key == "" then
    Except.error missingKeyMessage
  else
    Except.ok (makeClient api_key (env "NATIV_API_URL"))

/-- The server's startup path (module load builds the `FastMCP` catalog;
`main` runs the transport loop): it performs no credential lookup and
succeeds regardless of the environment. -/
def server_startup (_env : String → Option String) : Except String Unit :=
  Except.ok ()

/-- The shared first step of every tool handler: `client = _get_client()`,
resolving the credential from the ambient environment at call time, then
running the handler body with the client. -/
def handler_invoke (env : String → Option String)
    (run : NativClient → Except String String) : Except String String :=
  match get_client env with
  | Except.error e => Except.error e
  | Except.ok client => run client

/-! ## `search_translation_memory` formatting (lines 362–373) -/

/-- One bullet of the TM search results (lines 368–372).  `m['score']`,
`m['source_text']` and `m['target_text']` are raising subscripts, evaluated
in the f-string's left-to-right order; `match_type` and
`information_source` are read with `.get` defaults. -/
def tm_match_line (m : Dict) : Except String String := do
  let score ← ditem m "score"
  let scoreStr ← fmtScore score
  let mtype := pyStr (dgetD m "match_type" (JVal.str ""))
  let st ← ditem m "source_text"
  let tt ← ditem m "target_text"
  let info := pyStr (dgetD m "information_source" (JVal.str "N/A"))
  let stS := pyStr st
  let ttS := pyStr tt
  Except.ok (s!"- **{scoreStr}%** [{mtype}] \"{stS}\" → \"{ttS}\" (source: {info})")

/-- The same bullet as a total function, meaningful on matches that do
carry the three required fields (used to state the formatter's output). -/
def tm_match_render (m : Dict) : String :=
  let scoreStr := match dgetD m "score" (JVal.num 0) with
    | JVal.num n => toString n
    | _ => ""
  let mtype := pyStr (dgetD m "match_type" (JVal.str ""))
  let stS := pyStr (dgetD m "source_text" JVal.null)
  let ttS := pyStr (dgetD m "target_text" JVal.null)
  let info := pyStr (dgetD m "information_source" (JVal.str "N/A"))
  s!"- **{scoreStr}%** [{mtype}] \"{stS}\" → \"{ttS}\" (source: {info})"

/-- The `for m in matches` loop of the formatters: render each element in
order, propagating the first raised error. -/
def mapExcept {ε α β : Type} (f : α → Except ε β) : List α → Except ε (List β)
  | [] => Except.ok []
  | a :: as => do
    let b ← f a
    let bs ← mapExcept f as
    Except.ok (b :: bs)

/-- `search_translation_memory`'s response formatting: the "no matches"
sentinel on an empty match list, otherwise a header followed by one bullet
per match in upstream order. -/
def search_translation_memory_format (query : String) (ms : List Dict) :
    Except String String :=
  if ms.isEmpty then
    Except.ok ("No translation memory matches found for \"" ++ query ++ "\".")
  else do
    let rendered ← mapExcept tm_match_line ms
    let n := ms.length
    Except.ok (String.intercalate "\n"
      (("**TM Search Results** for \"" ++ query ++ "\" (" ++ toString n
          ++ " matches):\n") :: rendered))

/-! ## `get_languages` formatting (lines 417–431) -/

/-- One configured language's lines (lines 426–430): `lang['language']` and
`lang['language_code']` are raising subscripts; `formality` falls back to
`"neutral"` when unset or falsy, and the custom-style line is added only
when `custom_style` is truthy. -/
def language_entry (lang : Dict) : Except String String := do
  let fv := dget lang "formality"
  let formality := if pyTruthyOpt fv then pyStr (fv.getD JVal.null) else "neutral"
  let name ← ditem lang "language"
  let code ← ditem lang "language_code"
  let nameS := pyStr name
  let codeS := pyStr code
  let head := s!"- **{nameS}** (`{codeS}`) — formality: {formality}"
  let parts := if pyTruthyOpt (dget lang "custom_style") then
      let cs := pyStr ((dget lang "custom_style").getD JVal.null)
      [head, s!"  Custom style: {cs}"]
    else [head]
  Except.ok (String.intercalate "\n" parts)

/-- The same language lines as a total function, meaningful on entries
that do carry `language` and `language_code` (used to state the
formatter's output). -/
def language_render (lang : Dict) : String :=
  let fv := dget lang "formality"
  let formality := if pyTruthyOpt fv then pyStr (fv.getD JVal.null) else "neutral"
  let nameS := pyStr (dgetD lang "language" JVal.null)
  let codeS := pyStr (dgetD lang "language_code" JVal.null)
  let head := s!"- **{nameS}** (`{codeS}`) — formality: {formality}"
  let parts := if pyTruthyOpt (dget lang "custom_style") then
      let cs := pyStr ((dget lang "custom_style").getD JVal.null)
      [head, s!"  Custom style: {cs}"]
    else [head]
  String.intercalate "\n" parts

/-- `get_languages`'s response formatting: sentinel on an empty language
list, otherwise a header followed by one entry per language. -/
def get_languages_format (languages : List Dict) : Except String String :=
  if languages.isEmpty then
    Except.ok "No languages configured. Set up languages at https://dashboard.usenativ.com"
  else do
    let rendered ← mapExcept language_entry languages
    let n := languages.length
    Except.ok (String.intercalate "\n"
      (s!"**Configured Languages** ({n}):\n" :: rendered))

/-! ## `translate` result formatting (lines 263–277) -/

/-- The TM-match annotation lines of the `translate` output: rendered only
when `result.get("tm_match")` is a truthy dict whose `score` (default 0)
is strictly positive; the inner reference line is added only when the
match's `source_text` is truthy.  A non-numeric `score` would be a Python
type error upstream of any rendering and is outside this model. -/
def tm_match_note (tm : Option JVal) : List String :=
  match tm with
  | some (JVal.obj m) =>
    if pyTruthy (JVal.obj m) then
      match dgetD m "score" (JVal.num 0) with
      | JVal.num n =>
        if 0 < n then
          let mtype := pyStr (dgetD m "match_type" (JVal.str "unknown"))
          let src := pyStr (dgetD m "tm_source" (JVal.str "N/A"))
          let head := s!"\n**TM Match:** {n}% ({mtype}) — source: {src}"
          let refs := if pyTruthyOpt (dget m "source_text") then
              let st := pyStr ((dget m "source_text").getD JVal.null)
              let tt := pyStr (dgetD m "target_text" (JVal.str ""))
              [s!"  TM reference: \"{st}\" → \"{tt}\""]
            else []
          head :: refs
        else []
      | _ => []
    else []
  | _ => []

/-- The headline part of the `translate` output. -/
def translate_headline (target_language : String) (result : Dict) : String :=
  s!"**Translation ({target_language}):** "
    ++ pyStr (dgetD result "translated_text" (JVal.str ""))

/-- The optional back-translation section of the `translate` output. -/
def backtranslation_lines (result : Dict) : List String :=
  if pyTruthyOpt (dget result "backtranslation") then
    let bt := pyStr ((dget result "backtranslation").getD JVal.null)
    [s!"\n**Back-translation:** {bt}"]
  else []

/-- The optional rationale section of the `translate` output. -/
def rationale_lines (result : Dict) : List String :=
  if pyTruthyOpt (dget result "rationale") then
    let ra := pyStr ((dget result "rationale").getD JVal.null)
    [s!"\n**Rationale:** {ra}"]
  else []

/-- The `parts` list built by the `translate` tool before joining:
headline, then the optional TM-match annotation, back-translation and
rationale sections, each omitted entirely when absent. -/
def translate_parts (target_language : String) (result : Dict) : List String :=
  translate_headline target_language result
    :: (tm_match_note (dget result "tm_match")
        ++ backtranslation_lines result ++ rationale_lines result)

def translate_format (target_language : String) (result : Dict) : String :=
  String.intercalate "\n" (translate_parts target_language result)

/-! ## `translate_batch` (lines 304–330) -/

/-- The per-item TM score note of a batch line (lines 321–324). -/
def batch_tm_note (result : Dict) : String :=
  match dget result "tm_match" with
  | some (JVal.obj m) =>
    if pyTruthy (JVal.obj m) then
      match dgetD m "score" (JVal.num 0) with
      | JVal.num n => if 0 < n then s!" (TM {n}%)" else ""
      | _ => ""
    else ""
  | _ => ""

/-- The part of a batch line after the `{index}. "{input}" → ` prefix:
the quoted translation plus TM note on success, `ERROR: {message}` on a
caught exception. -/
def batch_item_tail (outcome : Except String Dict) : String :=
  match outcome with
  | Except.ok result =>
    let translated := pyStr (dgetD result "translated_text" (JVal.str ""))
    "\"" ++ translated ++ "\"" ++ batch_tm_note result
  | Except.error e => "ERROR: " ++ e

/-- One line of the batch output (the body of the `for` loop, lines
306–327): the success rendering when the item's upstream call returned a
result, the inline `ERROR:` rendering when it raised. -/
def batch_item_line (i : Nat) (text : String) (outcome : Except String Dict) :
    String :=
  s!"{i+1}. \"{text}\" → " ++ batch_item_tail outcome

/-- The numbered result lines of `translate_batch`: each input is
translated independently (`call i text` is item `i`'s upstream outcome)
and rendered by `batch_item_line`, failures included. -/
def translate_batch_lines (texts : List String)
    (call : Nat → String → Except String Dict) : List String :=
  texts.enum.map (fun p => batch_item_line p.1 p.2 (call p.1 p.2))

/-- The full `translate_batch` return value: header plus joined lines. -/
def translate_batch_output (texts : List String) (target_language : String)
    (call : Nat → String → Except String Dict) : String :=
  let n := texts.length
  s!"**Batch translation to {target_language}** ({n} items):\n"
    ++ String.intercalate "\n" (translate_batch_lines texts call)

/-! ## `get_style_guides` formatting (lines 474–490) -/

/-- The content truncation of `get_style_guides` (lines 485–487). -/
def style_guide_content_render (content : String) : String :=
  if content.length > 500 then content.take 500 ++ "..." else content

/-- One style guide's lines (lines 482–489): title heading with status,
then the (possibly truncated) content, then a blank separator line. -/
def style_guide_block (g : Dict) : List String :=
  let status := if pyTruthyOpt (dget g "is_enabled") then "enabled" else "disabled"
  let title := pyStr (dgetD g "title" (JVal.str "Untitled"))
  let content := pyStr (dgetD g "content" (JVal.str ""))
  [s!"### {title} ({status})", style_guide_content_render content, ""]

/-- `get_style_guides`'s response formatting. -/
def get_style_guides_format (guides : List Dict) : String :=
  if guides.isEmpty then
    "No custom style guides configured. Create them at https://dashboard.usenativ.com → Settings → Style Guides"
  else
    let n := guides.length
    String.intercalate "\n"
      (s!"**Style Guides** ({n}):\n" :: guides.flatMap style_guide_block)

/-! ## `get_brand_voice` formatting (lines 500–509) -/

/-- `get_brand_voice`'s response formatting: sentinel when no prompt
exists; otherwise the prompt, truncated to its first 2000 characters with
an ellipsis and the original character count when longer than 2000. -/
def get_brand_voice_format (result : Dict) : String :=
  if !pyTruthyOpt (dget result "exists") then
    "No brand voice prompt configured. Set one up at https://dashboard.usenativ.com → Settings → Style Guides"
  else
    let prompt := pyStr (dgetD result "prompt" (JVal.str ""))
    if prompt.length > 2000 then
      "**Brand Voice Prompt:**\n\n" ++ prompt.take 2000
        ++ "...\n\n(Truncated — full prompt has " ++ toString prompt.length
        ++ " characters)"
    else
      "**Brand Voice Prompt:**\n\n" ++ prompt

/-! ## Shared lemmas -/

theorem mapExcept_ok {ε α β : Type} (f : α → Except ε β) (g : α → β)
    (l : List α) (h : ∀ a ∈ l, f a = Except.ok (g a)) :
    mapExcept f l = Except.ok (l.map g) := by
  induction l with
  | nil => rfl
  | cons a as ih =>
    have ha := h a (List.mem_cons_self a as)
    have hr := ih (fun x hx => h x (List.mem_cons_of_mem a hx))
    simp only [mapExcept, ha, hr, List.map]
    rfl

theorem lookup_append_of_none {β : Type} (k : String)
    (l1 l2 : List (String × β)) (h : l1.lookup k = none) :
    (l1 ++ l2).lookup k = l2.lookup k := by
  induction l1 with
  | nil => rfl
  | cons p t ih =>
    obtain ⟨k1, v1⟩ := p
    rw [List.cons_append]
    simp only [List.lookup] at h ⊢
    by_cases hk : (k == k1) = true
    · rw [hk] at h
      exact Option.noConfusion h
    · rw [Bool.not_eq_true] at hk
      rw [hk] at h ⊢
      exact ih h

theorem lookup_optStrEntry_of_ne (k k' : String) (v : Option String)
    (h : (k' == k) = false) : (optStrEntry k v).lookup k' = none := by
  cases v with
  | none => rfl
  | some s =>
    simp only [optStrEntry]
    by_cases hs : s ≠ ""
    · rw [if_pos hs]
      simp only [List.lookup, h]
    · rw [if_neg hs]
      rfl

theorem lookup_optIntEntry_of_ne (k k' : String) (v : Option Int)
    (h : (k' == k) = false) : (optIntEntry k v).lookup k' = none := by
  cases v with
  | none => rfl
  | some n =>
    simp only [optIntEntry, List.lookup, h]

/-! ## Claim theorems -/

/-- C2: for every operation, an upstream HTTP response with status 402 is
surfaced as the single distinguished insufficient-credits error kind
carrying the remediation hint, and the generic upstream error kind is
produced exactly on the other non-2xx statuses, never on 402. -/
theorem status_402_is_insufficient_credits :
    (∀ (raw : String) (body : Dict),
      op_translate_outcome 402 raw body
          = Except.error (NativError.insufficientCredits insufficientCreditsHint)
      ∧ op_get_languages_outcome 402 raw body
          = Except.error (NativError.insufficientCredits insufficientCreditsHint)
      ∧ op_search_tm_outcome 402 raw body
          = Except.error (NativError.insufficientCredits insufficientCreditsHint)
      ∧ op_list_tm_entries_outcome 402 raw body
          = Except.error (NativError.insufficientCredits insufficientCreditsHint)
      ∧ op_add_tm_entry_outcome 402 raw body
          = Except.error (NativError.insufficientCredits insufficientCreditsHint)
      ∧ op_get_tm_stats_outcome 402 raw body
          = Except.error (NativError.insufficientCredits insufficientCreditsHint)
      ∧ op_list_style_guides_outcome 402 raw body
          = Except.error (NativError.insufficientCredits insufficientCreditsHint)
      ∧ op_get_brand_prompt_outcome 402 raw body
          = Except.error (NativError.insufficientCredits insufficientCreditsHint)
      ∧ op_get_combined_prompt_outcome 402 raw body
          = Except.error (NativError.insufficientCredits insufficientCreditsHint))
    ∧ (∀ (status : Nat) (raw : String) (body : Dict),
        (∃ s b, handle_status status raw body
            = Except.error (NativError.upstreamError s b))
          ↔ status ≠ 402 ∧ ¬(200 ≤ status ∧ status < 300)) := by
  constructor
  · intro raw body
    exact ⟨rfl, rfl, rfl, rfl, rfl, rfl, rfl, rfl, rfl⟩
  · intro status raw body
    by_cases h1 : status = 402
    · subst h1
      simp [handle_status]
    · by_cases h2 : 200 ≤ status ∧ status < 300
      · simp [handle_status, h1, h2]
      · simp [handle_status, h1, h2]

/-- C2 witness: a concrete 402 response from the translate operation is the
distinguished credits error, and a concrete 500 response is the generic
upstream error. -/
theorem status_402_is_insufficient_credits_witness :
    op_translate_outcome 402 "payment required" []
        = Except.error (NativError.insufficientCredits insufficientCreditsHint)
    ∧ (∃ s b, handle_status 500 "boom" []
        = Except.error (NativError.upstreamError s b))
    ∧ ¬(∃ s b, handle_status 402 "payment required" []
        = Except.error (NativError.upstreamError s b)) :=
  ⟨(status_402_is_insufficient_credits.1 "payment required" []).1,
   (status_402_is_insufficient_credits.2 500 "boom" []).mpr
     (by constructor <;> omega),
   fun h => by
     have := (status_402_is_insufficient_credits.2 402 "payment required" []).mp h
     exact this.1 rfl⟩

/-- C3: in the `translate` tool, every optional parameter left at its
empty-string or zero sentinel (`target_language_code`, `context`,
`glossary`, `formality`, `max_characters`) produces no key at all in the
upstream request body — for every call, whatever the other parameters
(including the other optionals) are set to. -/
theorem translate_omits_unset_optionals :
    ∀ (text target_language target_language_code source_language
        source_language_code context glossary formality : String)
      (max_characters : Int) (backtranslate : Bool),
      (target_language_code = "" →
        dget (tool_translate_body text target_language target_language_code
          source_language source_language_code context glossary formality
          max_characters backtranslate) "language_code" = none)
      ∧ (context = "" →
        dget (tool_translate_body text target_language target_language_code
          source_language source_language_code context glossary formality
          max_characters backtranslate) "context" = none)
      ∧ (glossary = "" →
        dget (tool_translate_body text target_language target_language_code
          source_language source_language_code context glossary formality
          max_characters backtranslate) "glossary" = none)
      ∧ (formality = "" →
        dget (tool_translate_body text target_language target_language_code
          source_language source_language_code context glossary formality
          max_characters backtranslate) "formality" = none)
      ∧ (max_characters = 0 →
        dget (tool_translate_body text target_language target_language_code
          source_language source_language_code context glossary formality
          max_characters backtranslate) "max_characters" = none) := by
  intro text tl tlc sl slc ctx gls frm mc bt
  refine ⟨?_, ?_, ?_, ?_, ?_⟩
  · intro h
    subst h
    simp only [tool_translate_body, client_translate_body, dget,
      List.append_assoc]
    rw [lookup_append_of_none "language_code" _ _ (by rfl)]
    rw [lookup_append_of_none "language_code"
      (optStrEntry "language_code" (orNone "")) _ (by rfl)]
    rw [lookup_append_of_none "language_code"
      (optStrEntry "context" (orNone ctx)) _
      (lookup_optStrEntry_of_ne "context" "language_code" (orNone ctx)
        (by rfl))]
    rw [lookup_append_of_none "language_code"
      (optStrEntry "glossary" (orNone gls)) _
      (lookup_optStrEntry_of_ne "glossary" "language_code" (orNone gls)
        (by rfl))]
    rw [lookup_append_of_none "language_code"
      (optStrEntry "formality" (orNone frm)) _
      (lookup_optStrEntry_of_ne "formality" "language_code" (orNone frm)
        (by rfl))]
    exact lookup_optIntEntry_of_ne "max_characters" "language_code" _ (by rfl)
  · intro h
    subst h
    simp only [tool_translate_body, client_translate_body, dget,
      List.append_assoc]
    rw [lookup_append_of_none "context" _ _ (by rfl)]
    rw [lookup_append_of_none "context"
      (optStrEntry "language_code" (orNone tlc)) _
      (lookup_optStrEntry_of_ne "language_code" "context" (orNone tlc)
        (by rfl))]
    rw [lookup_append_of_none "context" (optStrEntry "context" (orNone "")) _
      (by rfl)]
    rw [lookup_append_of_none "context" (optStrEntry "glossary" (orNone gls)) _
      (lookup_optStrEntry_of_ne "glossary" "context" (orNone gls) (by rfl))]
    rw [lookup_append_of_none "context" (optStrEntry "formality" (orNone frm)) _
      (lookup_optStrEntry_of_ne "formality" "context" (orNone frm) (by rfl))]
    exact lookup_optIntEntry_of_ne "max_characters" "context" _ (by rfl)
  · intro h
    subst h
    simp only [tool_translate_body, client_translate_body, dget,
      List.append_assoc]
    rw [lookup_append_of_none "glossary" _ _ (by rfl)]
    rw [lookup_append_of_none "glossary"
      (optStrEntry "language_code" (orNone tlc)) _
      (lookup_optStrEntry_of_ne "language_code" "glossary" (orNone tlc)
        (by rfl))]
    rw [lookup_append_of_none "glossary" (optStrEntry "context" (orNone ctx)) _
      (lookup_optStrEntry_of_ne "context" "glossary" (orNone ctx) (by rfl))]
    rw [lookup_append_of_none "glossary" (optStrEntry "glossary" (orNone "")) _
      (by rfl)]
    rw [lookup_append_of_none "glossary"
      (optStrEntry "formality" (orNone frm)) _
      (lookup_optStrEntry_of_ne "formality" "glossary" (orNone frm) (by rfl))]
    exact lookup_optIntEntry_of_ne "max_characters" "glossary" _ (by rfl)
  · intro h
    subst h
    simp only [tool_translate_body, client_translate_body, dget,
      List.append_assoc]
    rw [lookup_append_of_none "formality" _ _ (by rfl)]
    rw [lookup_append_of_none "formality"
      (optStrEntry "language_code" (orNone tlc)) _
      (lookup_optStrEntry_of_ne "language_code" "formality" (orNone tlc)
        (by rfl))]
    rw [lookup_append_of_none "formality" (optStrEntry "context" (orNone ctx)) _
      (lookup_optStrEntry_of_ne "context" "formality" (orNone ctx) (by rfl))]
    rw [lookup_append_of_none "formality"
      (optStrEntry "glossary" (orNone gls)) _
      (lookup_optStrEntry_of_ne "glossary" "formality" (orNone gls) (by rfl))]
    rw [lookup_append_of_none "formality"
      (optStrEntry "formality" (orNone "")) _ (by rfl)]
    exact lookup_optIntEntry_of_ne "max_characters" "formality" _ (by rfl)
  · intro h
    subst h
    simp only [tool_translate_body, client_translate_body, dget,
      List.append_assoc]
    rw [lookup_append_of_none "max_characters" _ _ (by rfl)]
    rw [lookup_append_of_none "max_characters"
      (optStrEntry "language_code" (orNone tlc)) _
      (lookup_optStrEntry_of_ne "language_code" "max_characters" (orNone tlc)
        (by rfl))]
    rw [lookup_append_of_none "max_characters"
      (optStrEntry "context" (orNone ctx)) _
      (lookup_optStrEntry_of_ne "context" "max_characters" (orNone ctx)
        (by rfl))]
    rw [lookup_append_of_none "max_characters"
      (optStrEntry "glossary" (orNone gls)) _
      (lookup_optStrEntry_of_ne "glossary" "max_characters" (orNone gls)
        (by rfl))]
    rw [lookup_append_of_none "max_characters"
      (optStrEntry "formality" (orNone frm)) _
      (lookup_optStrEntry_of_ne "formality" "max_characters" (orNone frm)
        (by rfl))]
    rfl

/-- C3 witness: mixed calls — in each, exactly one optional is left at its
sentinel while the other optionals are set, and only the sentinel one's
key is absent (the set ones are present, shown by direct evaluation). -/
theorem translate_omits_unset_optionals_witness :
    dget (tool_translate_body "hi" "French" "" "English" "en" "some context"
        "term,translation" "formal" 7 true) "language_code" = none
    ∧ dget (tool_translate_body "hi" "French" "fr" "English" "en" ""
        "term,translation" "formal" 7 true) "context" = none
    ∧ dget (tool_translate_body "hi" "French" "fr" "English" "en"
        "some context" "" "formal" 7 true) "glossary" = none
    ∧ dget (tool_translate_body "hi" "French" "fr" "English" "en"
        "some context" "term,translation" "" 7 true) "formality" = none
    ∧ dget (tool_translate_body "hi" "French" "fr" "English" "en"
        "some context" "term,translation" "formal" 0 true)
        "max_characters" = none
    ∧ dget (tool_translate_body "hi" "French" "" "English" "en" "some context"
        "term,translation" "formal" 7 true) "glossary"
      = some (JVal.str "term,translation")
    ∧ dget (tool_translate_body "hi" "French" "" "English" "en" "some context"
        "term,translation" "formal" 7 true) "max_characters"
      = some (JVal.num 7) :=
  ⟨(translate_omits_unset_optionals "hi" "French" "" "English" "en"
      "some context" "term,translation" "formal" 7 true).1 rfl,
   (translate_omits_unset_optionals "hi" "French" "fr" "English" "en" ""
      "term,translation" "formal" 7 true).2.1 rfl,
   (translate_omits_unset_optionals "hi" "French" "fr" "English" "en"
      "some context" "" "formal" 7 true).2.2.1 rfl,
   (translate_omits_unset_optionals "hi" "French" "fr" "English" "en"
      "some context" "term,translation" "" 7 true).2.2.2.1 rfl,
   (translate_omits_unset_optionals "hi" "French" "fr" "English" "en"
      "some context" "term,translation" "formal" 0 true).2.2.2.2 rfl,
   rfl, rfl⟩

/-- C10: every invocation of the single-item `translate` tool sends
`include_tm_info = true` and `include_rationale = true` in the upstream
body (the tool exposes no parameter for them), while `backtranslate` is
whatever the caller passed (its tool default being `false`). -/
theorem translate_always_requests_tm_info_and_rationale :
    ∀ (text target_language target_language_code source_language
        source_language_code context glossary formality : String)
      (max_characters : Int) (backtranslate : Bool),
      dget (tool_translate_body text target_language target_language_code
          source_language source_language_code context glossary formality
          max_characters backtranslate) "include_tm_info"
        = some (JVal.bool true)
      ∧ dget (tool_translate_body text target_language target_language_code
          source_language source_language_code context glossary formality
          max_characters backtranslate) "include_rationale"
        = some (JVal.bool true)
      ∧ dget (tool_translate_body text target_language target_language_code
          source_language source_language_code context glossary formality
          max_characters backtranslate) "backtranslate"
        = some (JVal.bool backtranslate) := by
  intro text tl tlc sl slc ctx gls frm mc bt
  exact ⟨rfl, rfl, rfl⟩

/-- C7: `get_brand_voice` renders a prompt longer than 2000 characters as
its first 2000 characters, an ellipsis, and a suffix stating the original
total character count; a prompt of at most 2000 characters is rendered in
full.  The formatter is a pure function of the response, so re-running it
on an unchanged response yields the identical string. -/
theorem get_brand_voice_truncates_at_2000 :
    ∀ (ev : JVal) (prompt : String), pyTruthy ev = true →
      (2000 < prompt.length →
        get_brand_voice_format [("exists", ev), ("prompt", JVal.str prompt)]
          = "**Brand Voice Prompt:**\n\n" ++ prompt.take 2000
            ++ "...\n\n(Truncated — full prompt has " ++ toString prompt.length
            ++ " characters)")
      ∧ (prompt.length ≤ 2000 →
        get_brand_voice_format [("exists", ev), ("prompt", JVal.str prompt)]
          = "**Brand Voice Prompt:**\n\n" ++ prompt) := by
  intro ev prompt hev
  have h1 : dget [("exists", ev), ("prompt", JVal.str prompt)] "exists" = some ev := rfl
  have h2 : dget [("exists", ev), ("prompt", JVal.str prompt)] "prompt"
      = some (JVal.str prompt) := rfl
  constructor
  · intro hlen
    simp [get_brand_voice_format, h1, h2, dgetD, pyTruthyOpt, pyStr, hev, hlen]
  · intro hlen
    have hlt : ¬ prompt.length > 2000 := by omega
    simp [get_brand_voice_format, h1, h2, dgetD, pyTruthyOpt, pyStr, hev, hlt]

def long_prompt : String := String.mk (List.replicate 2001 'a')

theorem long_prompt_length : long_prompt.length = 2001 := by
  rw [long_prompt, ← String.length_data]
  exact List.length_replicate 2001 'a'

/-- C7 witness: a concrete 2001-character prompt is truncated with its
full length reported, and a short prompt passes through unmodified. -/
theorem get_brand_voice_truncates_at_2000_witness :
    pyTruthy (JVal.bool true) = true
    ∧ 2000 < long_prompt.length
    ∧ get_brand_voice_format
        [("exists", JVal.bool true), ("prompt", JVal.str long_prompt)]
        = "**Brand Voice Prompt:**\n\n" ++ long_prompt.take 2000
          ++ "...\n\n(Truncated — full prompt has " ++ toString long_prompt.length
          ++ " characters)"
    ∧ ("short".length ≤ 2000
        ∧ get_brand_voice_format
            [("exists", JVal.bool true), ("prompt", JVal.str "short")]
          = "**Brand Voice Prompt:**\n\n" ++ "short") :=
  ⟨rfl, by rw [long_prompt_length]; omega,
   (get_brand_voice_truncates_at_2000 (JVal.bool true) long_prompt rfl).1
     (by rw [long_prompt_length]; omega),
   by decide,
   (get_brand_voice_truncates_at_2000 (JVal.bool true) "short" rfl).2 (by decide)⟩

/-- C8: `get_style_guides` truncates a content body longer than 500
characters to its first 500 characters plus the three-character `"..."`
marker, renders bodies of at most 500 characters unmodified, and places
the rendered content as the second line of each guide's block. -/
theorem get_style_guides_truncates_at_500 :
    ∀ content : String,
      (500 < content.length →
        style_guide_content_render content = content.take 500 ++ "...")
      ∧ (content.length ≤ 500 → style_guide_content_render content = content)
      ∧ ("...".length = 3)
      ∧ (∀ g : Dict, (style_guide_block g).get? 1
          = some (style_guide_content_render (pyStr (dgetD g "content" (JVal.str ""))))) := by
  intro content
  refine ⟨?_, ?_, by decide, fun g => rfl⟩
  · intro h
    simp [style_guide_content_render, h]
  · intro h
    have hlt : ¬ content.length > 500 := by omega
    simp [style_guide_content_render, hlt]

def long_content : String := String.mk (List.replicate 501 'x')

theorem long_content_length : long_content.length = 501 := by
  rw [long_content, ← String.length_data]
  exact List.length_replicate 501 'x'

/-- C8 witness: a concrete 501-character body is truncated to 500
characters plus the marker, and a short body is unmodified. -/
theorem get_style_guides_truncates_at_500_witness :
    500 < long_content.length
    ∧ style_guide_content_render long_content = long_content.take 500 ++ "..."
    ∧ ("tiny".length ≤ 500
        ∧ style_guide_content_render "tiny" = "tiny") :=
  ⟨by rw [long_content_length]; omega,
   (get_style_guides_truncates_at_500 long_content).1
     (by rw [long_content_length]; omega),
   by decide,
   (get_style_guides_truncates_at_500 "tiny").2.1 (by decide)⟩

/-- C9: the `translate` output's TM-match annotation lines are non-empty
exactly when the response carries a `tm_match` object whose `score` is a
strictly positive number; in particular a match with score ≤ 0 (or with
no positive score at all) contributes no annotation, even though it is
present in the payload.  The second conjunct places those annotation
lines in the rendered parts list. -/
theorem translate_renders_tm_match_iff_positive_score :
    ∀ (target_language : String) (result : Dict),
      (tm_match_note (dget result "tm_match") ≠ [] ↔
        ∃ m n, dget result "tm_match" = some (JVal.obj m)
          ∧ dget m "score" = some (JVal.num n) ∧ 0 < n)
      ∧ translate_parts target_language result
          = translate_headline target_language result
            :: (tm_match_note (dget result "tm_match")
                ++ backtranslation_lines result ++ rationale_lines result) := by
  intro tl result
  refine ⟨?_, rfl⟩
  cases htm : dget result "tm_match" with
  | none => simp [tm_match_note]
  | some v =>
    cases v with
    | str s => simp [tm_match_note]
    | num n => simp [tm_match_note]
    | bool b => simp [tm_match_note]
    | null => simp [tm_match_note]
    | arr a => simp [tm_match_note]
    | obj m =>
      cases hs : dget m "score" with
      | none => simp [tm_match_note, dgetD, hs]
      | some sv =>
        have hm : m ≠ [] := by
          intro hnil
          rw [hnil] at hs
          exact Option.noConfusion hs
        cases sv with
        | num n =>
          by_cases hn : 0 < n
          · simp [tm_match_note, dgetD, hs, hn, pyTruthy, hm]
          · simp [tm_match_note, dgetD, hs, hn, pyTruthy, hm]
        | str s => simp [tm_match_note, dgetD, hs, pyTruthy, hm]
        | bool b => simp [tm_match_note, dgetD, hs, pyTruthy, hm]
        | null => simp [tm_match_note, dgetD, hs, pyTruthy, hm]
        | obj o => simp [tm_match_note, dgetD, hs, pyTruthy, hm]
        | arr a => simp [tm_match_note, dgetD, hs, pyTruthy, hm]

/-- C9 witness: a payload whose match scores 85 gets the annotation, and a
payload whose match scores −3 gets none (its parts list is just the
headline). -/
theorem translate_renders_tm_match_iff_positive_score_witness :
    tm_match_note (dget [("tm_match", JVal.obj [("score", JVal.num 85)])]
        "tm_match") ≠ []
    ∧ tm_match_note (dget
        [("tm_match", JVal.obj [("score", JVal.num (-3)),
          ("source_text", JVal.str "s")])] "tm_match") = []
    ∧ translate_parts "French"
        [("translated_text", JVal.str "Bonjour"),
         ("tm_match", JVal.obj [("score", JVal.num (-3))])]
        = [translate_headline "French"
            [("translated_text", JVal.str "Bonjour"),
             ("tm_match", JVal.obj [("score", JVal.num (-3))])]] :=
  ⟨(translate_renders_tm_match_iff_positive_score "x"
      [("tm_match", JVal.obj [("score", JVal.num 85)])]).1.mpr
    ⟨[("score", JVal.num 85)], 85, rfl, rfl, by decide⟩,
   by decide, rfl⟩

/-- C6: `search_translation_memory` on an empty match set returns exactly
the interpolated "no matches" sentinel and renders no bulleted list; on a
non-empty match set it returns the header followed by one bullet per
match, mapped over the matches in their upstream order (no local
re-sorting). -/
theorem search_tm_sentinel_and_ranking_order :
    (∀ query : String,
      search_translation_memory_format query []
        = Except.ok ("No translation memory matches found for \""
            ++ query ++ "\"."))
    ∧ (∀ (query : String) (ms : List Dict), ms ≠ [] →
        (∀ m ∈ ms, tm_match_line m = Except.ok (tm_match_render m)) →
        search_translation_memory_format query ms
          = Except.ok (String.intercalate "\n"
              (("**TM Search Results** for \"" ++ query ++ "\" ("
                  ++ toString ms.length ++ " matches):\n")
                :: ms.map tm_match_render))) := by
  constructor
  · intro query
    rfl
  · intro query ms hne hok
    have hE : ms.isEmpty = false := by
      cases ms with
      | nil => exact absurd rfl hne
      | cons a as => rfl
    simp only [search_translation_memory_format, hE, Bool.false_eq_true,
      if_false]
    rw [mapExcept_ok tm_match_line tm_match_render ms hok]
    rfl

def match_cat : Dict :=
  [("score", JVal.num 50), ("match_type", JVal.str "fuzzy"),
   ("source_text", JVal.str "cat"), ("target_text", JVal.str "chat"),
   ("information_source", JVal.str "manual")]

def match_dog : Dict :=
  [("score", JVal.num 90), ("match_type", JVal.str "exact"),
   ("source_text", JVal.str "dog"), ("target_text", JVal.str "chien"),
   ("information_source", JVal.str "approved")]

/-- C6 witness: the empty set yields the exact sentinel for `"hello"`, and
a two-match set whose upstream order is 50% before 90% is rendered in
that order (the lower score stays first). -/
theorem search_tm_sentinel_and_ranking_order_witness :
    search_translation_memory_format "hello" []
      = Except.ok "No translation memory matches found for \"hello\"."
    ∧ [match_cat, match_dog] ≠ ([] : List Dict)
    ∧ (∀ m ∈ [match_cat, match_dog],
        tm_match_line m = Except.ok (tm_match_render m))
    ∧ search_translation_memory_format "hello" [match_cat, match_dog]
        = Except.ok (String.intercalate "\n"
            (("**TM Search Results** for \"" ++ "hello" ++ "\" ("
                ++ toString ([match_cat, match_dog] : List Dict).length
                ++ " matches):\n")
              :: ([match_cat, match_dog] : List Dict).map tm_match_render))
    ∧ tm_match_render match_cat
        = "- **50%** [fuzzy] \"cat\" → \"chat\" (source: manual)" :=
  ⟨search_tm_sentinel_and_ranking_order.1 "hello",
   by simp,
   by
    intro m hm
    simp only [List.mem_cons, List.not_mem_nil, or_false] at hm
    rcases hm with rfl | rfl <;> rfl,
   search_tm_sentinel_and_ranking_order.2 "hello" [match_cat, match_dog]
     (by simp)
     (by
      intro m hm
      simp only [List.mem_cons, List.not_mem_nil, or_false] at hm
      rcases hm with rfl | rfl <;> rfl),
   rfl⟩

/-- C5 counterexample: the claim fails on the code as written.  A TM
search match lacking only the `score` field (all other example fields
present) makes the formatter raise a `KeyError` instead of returning a
result, and a configured language lacking the `language` field does the
same in `get_languages`. -/
theorem formatters_raise_on_missing_subscripted_fields :
    search_translation_memory_format "hello"
        [[("match_type", JVal.str "fuzzy"), ("source_text", JVal.str "a"),
          ("target_text", JVal.str "b"),
          ("information_source", JVal.str "manual")]]
      = Except.error "KeyError: score"
    ∧ language_entry [("language_code", JVal.str "fr"),
        ("formality", JVal.str "formal")]
      = Except.error "KeyError: language" :=
  ⟨rfl, rfl⟩

/-- C5 amended: in the TM-search and languages formatters the fields read
with `.get` defaults (`match_type`, `information_source`, `formality`,
`custom_style`) tolerate absence, but the fields read with raising
subscripts do not: a TM search match must carry `score`, `source_text`
and `target_text`, and a language entry must carry `language` and
`language_code` — when all of those are present the formatters return a
result whatever else is missing, and absence of any one of them raises a
`KeyError` naming the first missing field in evaluation order.  The
style-guide formatter reads all its fields (`title`, `content`,
`is_enabled`) with `.get` defaults and renders a three-line block for
every guide dictionary. -/
theorem formatter_defaults_and_required_fields :
    (∀ (m : Dict) (sc : Int) (st tt : JVal),
        dget m "score" = some (JVal.num sc) →
        dget m "source_text" = some st →
        dget m "target_text" = some tt →
        tm_match_line m = Except.ok (tm_match_render m))
    ∧ (∀ (lang : Dict) (nm cd : JVal),
        dget lang "language" = some nm →
        dget lang "language_code" = some cd →
        language_entry lang = Except.ok (language_render lang))
    ∧ (∀ m : Dict, dget m "score" = none →
        tm_match_line m = Except.error "KeyError: score")
    ∧ (∀ (m : Dict) (sc : Int),
        dget m "score" = some (JVal.num sc) →
        dget m "source_text" = none →
        tm_match_line m = Except.error "KeyError: source_text")
    ∧ (∀ (m : Dict) (sc : Int) (st : JVal),
        dget m "score" = some (JVal.num sc) →
        dget m "source_text" = some st →
        dget m "target_text" = none →
        tm_match_line m = Except.error "KeyError: target_text")
    ∧ (∀ lang : Dict, dget lang "language" = none →
        language_entry lang = Except.error "KeyError: language")
    ∧ (∀ (lang : Dict) (nm : JVal),
        dget lang "language" = some nm →
        dget lang "language_code" = none →
        language_entry lang = Except.error "KeyError: language_code")
    ∧ (∀ g : Dict, (style_guide_block g).length = 3) := by
  refine ⟨?_, ?_, ?_, ?_, ?_, ?_, ?_, fun g => rfl⟩
  · intro m sc st tt h1 h2 h3
    simp only [tm_match_line, tm_match_render, ditem, dgetD, h1, h2, h3,
      fmtScore]
    rfl
  · intro lang nm cd h1 h2
    simp only [language_entry, language_render, ditem, dgetD, h1, h2]
    rfl
  · intro m h
    simp only [tm_match_line, ditem, h]
    rfl
  · intro m sc h1 h2
    simp only [tm_match_line, ditem, h1, h2, fmtScore]
    rfl
  · intro m sc st h1 h2 h3
    simp only [tm_match_line, ditem, h1, h2, h3, fmtScore]
    rfl
  · intro lang h
    simp only [language_entry, ditem, h]
    rfl
  · intro lang nm h1 h2
    simp only [language_entry, ditem, h1, h2]
    rfl

/-- C5 witness: a match carrying only the three required fields formats
successfully (the `.get` fields fall back to their defaults), a language
carrying only name and code formats successfully, and absence of each
required field — `score`, `source_text`, `target_text`, `language`,
`language_code` — raises the corresponding `KeyError`; an empty style
guide dictionary still renders its three-line block. -/
theorem formatter_defaults_and_required_fields_witness :
    dget [("score", JVal.num 75), ("source_text", JVal.str "a"),
        ("target_text", JVal.str "b")] "score" = some (JVal.num 75)
    ∧ tm_match_line [("score", JVal.num 75), ("source_text", JVal.str "a"),
        ("target_text", JVal.str "b")]
      = Except.ok (tm_match_render [("score", JVal.num 75),
          ("source_text", JVal.str "a"), ("target_text", JVal.str "b")])
    ∧ language_entry [("language", JVal.str "French"),
        ("language_code", JVal.str "fr")]
      = Except.ok (language_render [("language", JVal.str "French"),
          ("language_code", JVal.str "fr")])
    ∧ tm_match_line [("match_type", JVal.str "exact")]
      = Except.error "KeyError: score"
    ∧ tm_match_line [("score", JVal.num 75), ("target_text", JVal.str "b")]
      = Except.error "KeyError: source_text"
    ∧ tm_match_line [("score", JVal.num 75), ("source_text", JVal.str "a")]
      = Except.error "KeyError: target_text"
    ∧ language_entry [("formality", JVal.str "formal")]
      = Except.error "KeyError: language"
    ∧ language_entry [("language", JVal.str "French")]
      = Except.error "KeyError: language_code"
    ∧ (style_guide_block ([] : Dict)).length = 3 :=
  ⟨rfl,
   formatter_defaults_and_required_fields.1
     [("score", JVal.num 75), ("source_text", JVal.str "a"),
      ("target_text", JVal.str "b")] 75 (JVal.str "a") (JVal.str "b")
     rfl rfl rfl,
   formatter_defaults_and_required_fields.2.1
     [("language", JVal.str "French"), ("language_code", JVal.str "fr")]
     (JVal.str "French") (JVal.str "fr") rfl rfl,
   formatter_defaults_and_required_fields.2.2.1
     [("match_type", JVal.str "exact")] rfl,
   formatter_defaults_and_required_fields.2.2.2.1
     [("score", JVal.num 75), ("target_text", JVal.str "b")] 75 rfl rfl,
   formatter_defaults_and_required_fields.2.2.2.2.1
     [("score", JVal.num 75), ("source_text", JVal.str "a")] 75
     (JVal.str "a") rfl rfl rfl,
   formatter_defaults_and_required_fields.2.2.2.2.2.1
     [("formality", JVal.str "formal")] rfl,
   formatter_defaults_and_required_fields.2.2.2.2.2.2.1
     [("language", JVal.str "French")] (JVal.str "French") rfl rfl,
   formatter_defaults_and_required_fields.2.2.2.2.2.2.2 []⟩

def env_nokey : String → Option String := fun _ => none

def env_withkey : String → Option String := fun name =>
  if name == "NATIV_API_KEY" then some "key-123" else none

/-- C4 counterexample: with no credential in the environment, the server's
startup path succeeds (no configuration error is raised before requests
are served), and the error surfaces only when an operation handler is
invoked and performs its own environment lookup — contradicting the
claim that the credential is resolved once at process start and never
looked up inside handlers. -/
theorem startup_succeeds_without_credential :
    server_startup env_nokey = Except.ok ()
    ∧ handler_invoke env_nokey (fun _ => Except.ok "done")
      = Except.error missingKeyMessage :=
  ⟨rfl, rfl⟩

/-- C4 amended: absence of the API-key credential is a configuration
error raised at the start of each operation handler invocation, before
any upstream call: every handler resolves the credential from the
ambient environment via `_get_client` on each request and passes it into
the `NativClient` constructor, while server startup performs no
credential check at all. -/
theorem credential_resolved_inside_each_handler :
    ∀ (env : String → Option String) (run : NativClient → Except String String),
      ((env "NATIV_API_KEY").getD "" = "" →
        handler_invoke env run = Except.error missingKeyMessage)
      ∧ (∀ k : String, env "NATIV_API_KEY" = some k → k ≠ "" →
          handler_invoke env run = run (makeClient k (env "NATIV_API_URL")))
      ∧ server_startup env = Except.ok () := by
  intro env run
  refine ⟨?_, ?_, rfl⟩
  · intro h
    simp [handler_invoke, get_client, h]
  · intro k h1 h2
    simp [handler_invoke, get_client, h1, h2]

/-- C4 witness: the keyless environment makes a handler fail with the
configuration message, and an environment carrying the key makes the same
handler run with a client constructed from that key. -/
theorem credential_resolved_inside_each_handler_witness :
    (env_nokey "NATIV_API_KEY").getD "" = ""
    ∧ handler_invoke env_nokey (fun _ => Except.ok "done")
      = Except.error missingKeyMessage
    ∧ env_withkey "NATIV_API_KEY" = some "key-123"
    ∧ handler_invoke env_withkey (fun c => Except.ok c.api_key)
      = Except.ok "key-123" :=
  ⟨rfl,
   (credential_resolved_inside_each_handler env_nokey
     (fun _ => Except.ok "done")).1 rfl,
   rfl,
   (credential_resolved_inside_each_handler env_withkey
     (fun c => Except.ok c.api_key)).2.1 "key-123" rfl (by decide)⟩

/-- C1: `translate_batch` produces exactly one numbered line per input, in
input order; line `i` is computed from item `i`'s own upstream outcome
alone, so a failure on one item neither aborts nor skips any other item;
a caught failure renders inline as `{index}. "{input}" → ERROR: {message}`;
and every line starts with its 1-based index prefix. -/
theorem translate_batch_lines_indexed_and_isolated :
    ∀ (texts : List String) (call : Nat → String → Except String Dict),
      (translate_batch_lines texts call).length = texts.length
      ∧ (∀ (i : Nat) (t : String), texts.get? i = some t →
          (translate_batch_lines texts call).get? i
            = some (batch_item_line i t (call i t)))
      ∧ (∀ (i : Nat) (t e : String),
          batch_item_line i t (Except.error e)
            = s!"{i+1}. \"{t}\" → ERROR: {e}")
      ∧ (∀ (i : Nat) (t : String) (outcome : Except String Dict),
          batch_item_line i t outcome
            = s!"{i+1}. " ++ ("\"" ++ t ++ "\" → " ++ batch_item_tail outcome)) := by
  intro texts call
  refine ⟨?_, ?_, ?_, ?_⟩
  · simp [translate_batch_lines]
  · intro i t ht
    have ht' : texts[i]? = some t := by
      rw [← List.get?_eq_getElem?]
      exact ht
    simp [translate_batch_lines, List.getElem?_map, List.getElem?_enum, ht']
  · intro i t e
    simp only [batch_item_line, batch_item_tail, String.append_assoc]
    congr 4
    rw [← String.append_assoc]
    show "\" → ERROR: " ++ e = _
    simp [toString]
  · intro i t outcome
    simp only [batch_item_line, String.append_assoc]
    congr 2

def batch_call_mixed : Nat → String → Except String Dict := fun i _t =>
  if i == 1 then Except.error "transport error"
  else Except.ok [("translated_text", JVal.str "ok")]

/-- C1 witness: a batch of 3 inputs whose second item raises a transport
error yields exactly 3 lines — success lines for items 1 and 3 and an
inline `ERROR:` line for item 2, in original order. -/
theorem translate_batch_lines_indexed_and_isolated_witness :
    (translate_batch_lines ["one", "two", "three"] batch_call_mixed).length = 3
    ∧ (translate_batch_lines ["one", "two", "three"] batch_call_mixed).get? 0
        = some "1. \"one\" → \"ok\""
    ∧ (translate_batch_lines ["one", "two", "three"] batch_call_mixed).get? 1
        = some "2. \"two\" → ERROR: transport error"
    ∧ (translate_batch_lines ["one", "two", "three"] batch_call_mixed).get? 2
        = some "3. \"three\" → \"ok\""
    ∧ ["one", "two", "three"].get? 1 = some "two"
    ∧ (translate_batch_lines ["one", "two", "three"] batch_call_mixed).get? 1
        = some (batch_item_line 1 "two" (batch_call_mixed 1 "two")) :=
  ⟨rfl, rfl, rfl, rfl, rfl,
   (translate_batch_lines_indexed_and_isolated ["one", "two", "three"]
     batch_call_mixed).2.1 1 "two" rfl⟩
